import Mathlib

/-!
Verification of the assignment-expression parsing layer of the boa repository
(src/boa/src/syntax/parser/expression/assignment/mod.rs) against its design
specification.  The parser `AssignmentExpression::parse` and the predicate
`is_assignable` are embedded directly from the source file.  Collaborators that
the source file only declares (the token cursor, the conditional-expression
parser, the arrow-function parser, `Punctuator::as_binop`) are modelled from
the specification document, as noted in their doc comments.
-/

namespace Boa

/-- Keywords inspected by this layer (src lines 88-90 use `Keyword::Yield` and
`Keyword::Await`). -/
inductive Keyword where
  | Yield
  | Await
  deriving DecidableEq

/-- Punctuators used by this layer: the ones matched in the source file
(`Assign`, `Arrow`, `OpenParen`, `CloseParen`, `Spread`) together with the
compound-assignment punctuators covered by the `as_binop` mapping and ordinary
delimiters needed to build token streams. -/
inductive Punctuator where
  | Assign
  | Arrow
  | OpenParen
  | CloseParen
  | OpenBracket
  | CloseBracket
  | Spread
  | Comma
  | Semicolon
  | AssignAdd
  | AssignSub
  | AssignMul
  | AssignDiv
  | AssignMod
  | AssignPow
  | AssignAnd
  | AssignOr
  | AssignXor
  | AssignLeftSh
  | AssignRightSh
  | AssignURightSh
  | AssignBoolAnd
  | AssignBoolOr
  | AssignCoalesce
  deriving DecidableEq

/-- Binary operators that compound-assignment punctuators map onto. -/
inductive BinOpKind where
  | add
  | sub
  | mul
  | div
  | mod
  | exp
  | band
  | bor
  | bxor
  | shl
  | shr
  | ushr
  | land
  | lor
  | coalesce
  deriving DecidableEq

/-- Modelled from the spec (section 3, "Binary Operator", and section 6): a total
mapping from punctuator to optional binary operator.  The enumerated set is the
compound-assignment-eligible operators; punctuators with no binary meaning
(for example plain `=`) map to none.  The Rust `Punctuator::as_binop` lives
outside the provided source file. -/
def Punctuator.as_binop : Punctuator → Option BinOpKind
  | .AssignAdd => some .add
  | .AssignSub => some .sub
  | .AssignMul => some .mul
  | .AssignDiv => some .div
  | .AssignMod => some .mod
  | .AssignPow => some .exp
  | .AssignAnd => some .band
  | .AssignOr => some .bor
  | .AssignXor => some .bxor
  | .AssignLeftSh => some .shl
  | .AssignRightSh => some .shr
  | .AssignURightSh => some .ushr
  | .AssignBoolAnd => some .land
  | .AssignBoolOr => some .lor
  | .AssignCoalesce => some .coalesce
  | _ => none

/-- Token kinds (spec section 3, "Token"): identifier, keyword, punctuator,
line terminator, and the literal kinds this layer can meet. -/
inductive TokenKind where
  | Identifier (name : String)
  | Keyword (k : Keyword)
  | Punctuator (p : Punctuator)
  | NumericLiteral (n : Nat)
  | StringLiteral (s : String)
  | BoolLiteral (b : Bool)
  | LineTerminator
  deriving DecidableEq

/-- A lexical token: a kind plus its source position (spec section 3). -/
structure Token where
  kind : TokenKind
  pos : Nat
  deriving DecidableEq

/-- True exactly on line-terminator tokens. -/
def Token.isLT (t : Token) : Bool :=
  match t.kind with
  | .LineTerminator => true
  | _ => false

/-- Lexer goal symbols (src line 83 uses `InputElement::Div`). -/
inductive InputElement where
  | Div
  | RegExp
  deriving DecidableEq

/-- Modelled from the spec (sections 3 and 4.1): cursor state is the remaining
token stream, the single-token pushback slot, and the lexer goal.  The extra
flag `pushedWhileFull` records the rule of the spec that pushing back while the slot is
occupied is a programming error: it becomes true the moment `push_back` is
invoked while the slot already holds a token. -/
structure Cursor where
  tokens : List Token
  pushedBack : Option Token
  goal : InputElement
  pushedWhileFull : Bool
  deriving DecidableEq

/-- The effective token stream: the pushed-back token, if any, is re-delivered
before the rest of the stream (spec section 4.1, `push_back`). -/
def Cursor.stream (c : Cursor) : List Token :=
  match c.pushedBack with
  | some t => t :: c.tokens
  | none => c.tokens

/-- Modelled from the spec (section 4.1): `set_goal` switches the lexer goal. -/
def Cursor.set_goal (c : Cursor) (g : InputElement) : Cursor :=
  ⟨c.tokens, c.pushedBack, g, c.pushedWhileFull⟩

/-- Modelled from the spec (section 4.1): `peek` returns the next token without
consuming it; with `skip` set, line terminators are transparently skipped for
the purpose of this peek but not consumed from the stream. -/
def Cursor.peek (c : Cursor) (skip : Bool) : Option Token :=
  if skip then (c.stream.dropWhile Token.isLT).head? else c.stream.head?

/-- Modelled from the spec (section 4.1): `peek_skip` looks two tokens ahead
(peeks past the immediately-next token) without consuming anything. -/
def Cursor.peek_skip (c : Cursor) (skip : Bool) : Option Token :=
  if skip then ((c.stream.filter fun t => !t.isLT).drop 1).head?
  else (c.stream.drop 1).head?

/-- Modelled from the spec (section 4.1): succeeds (returns true, the embedded
form of `is_ok`) only if the very next raw token exists and is not a line
terminator; an empty stream is an error, hence false. -/
def Cursor.peek_expect_no_lineterminator (c : Cursor) (_skip : Bool) : Bool :=
  match c.stream.head? with
  | some t => !t.isLT
  | none => false

/-- Modelled from the spec (section 4.1): `next` consumes and returns the next
token; with `skip` set, leading line terminators are consumed and discarded
first. -/
def Cursor.next (c : Cursor) (skip : Bool) : Option Token × Cursor :=
  match if skip then c.stream.dropWhile Token.isLT else c.stream with
  | [] => (none, ⟨[], none, c.goal, c.pushedWhileFull⟩)
  | t :: rest => (some t, ⟨rest, none, c.goal, c.pushedWhileFull⟩)

/-- Modelled from the spec (sections 3 and 4.1): `push_back` returns one
previously-read token to the front of the stream; at most one outstanding
push-back is permitted, and pushing back while the slot is occupied is a
programming error, recorded here by setting `pushedWhileFull`. -/
def Cursor.push_back (c : Cursor) (t : Token) : Cursor :=
  match c.pushedBack with
  | none => ⟨c.tokens, some t, c.goal, c.pushedWhileFull⟩
  | some _ => ⟨c.tokens, some t, c.goal, true⟩

/-- Literal-constant payloads (numeric, string, boolean), the shapes the
assignability predicate rejects as `Node::Const`. -/
inductive Const where
  | num (n : Nat)
  | str (s : String)
  | bool (b : Bool)
  deriving DecidableEq

/-- A formal parameter of an arrow function: its name and whether it is a rest
(spread) parameter. -/
structure FormalParameter where
  name : String
  isRest : Bool
  deriving DecidableEq

/-- AST nodes (spec section 3, "AST Node"): the variants this layer produces
(`ArrowFunctionDecl`, `Assign`, `BinOp`), the variants `is_assignable`
rejects (`Const`, `ArrayDecl`), and further ordinary expression kinds
(identifiers, member accesses, calls) that the predicate must accept. -/
inductive Node where
  | Identifier (name : String)
  | Const (c : Const)
  | ArrayDecl (elems : List Node)
  | Assign (target value : Node)
  | BinOp (op : BinOpKind) (left right : Node)
  | ArrowFunctionDecl (params : List FormalParameter) (body : Node)
  | GetConstField (obj : Node) (field : String)
  | Call (callee : Node) (args : List Node)

/-- True exactly on arrow-function-declaration nodes. -/
def Node.isArrowFunctionDecl : Node → Bool
  | .ArrowFunctionDecl _ _ => true
  | _ => false

/-- Parse errors (spec section 7): `AbruptEnd` when the stream ends where a
token was required, and lexing-layer syntax errors, embedded from
`ParseError::lex(LexError::Syntax(msg))` (src lines 145-147): the construction
carries only the fixed message string.  `outOfFuel` is a model-only marker for
an exhausted recursion budget; every theorem below supplies enough fuel for it
never to arise. -/
inductive ParseError where
  | AbruptEnd
  | lexSyn (msg : String)
  | outOfFuel
  deriving DecidableEq

/-- The message carried by a lexing-layer syntax error, if the result is one. -/
def errMsgOf : Except ParseError Node → Option String
  | .error (.lexSyn m) => some m
  | _ => none

/-- Embedded from src lines 183-189: `is_assignable` returns false for a
literal-constant node and for an array-literal node, true for every other
node kind. -/
def is_assignable (node : Node) : Bool :=
  match node with
  | .Const _ | .ArrayDecl _ => false
  | _ => true

/-- The grammar flags threaded through every call (src lines 48-53): the parser
struct `AssignmentExpression` holds `allow_in`, `allow_yield`, `allow_await`.
This layer only forwards them unchanged. -/
structure AssignmentExpression where
  allow_in : Bool
  allow_yield : Bool
  allow_await : Bool
  deriving DecidableEq

/-- The result of one parse call, embedded from `ParseResult` (an `Ok` node or
a parse error). -/
abbrev ParseResult := Except ParseError Node

/-- Outcome of the arrow-function disambiguation lookahead (src lines 86-127):
abrupt end at the very first peek, commitment to the arrow branch, or
fall-through to the conditional-expression branch. -/
inductive Lookahead where
  | abruptEnd
  | commitArrow
  | fallThrough
  deriving DecidableEq

/-- Embedded from src lines 86-127: the arrow-function disambiguation step.
It uses only the peek operations, so it is a pure function of the cursor.
An identifier (or `yield`/`await`) head commits when no line terminator
immediately follows and the token two ahead is the `=>` punctuator; an
open-parenthesis head commits when the token two ahead is a close-parenthesis,
the spread punctuator, or an identifier; anything else falls through.  A
failing no-line-terminator check or a missing second token falls through
(src lines 91-92 discard those outcomes); only an empty stream at the very
first peek is `AbruptEnd` (src line 86). -/
def arrowLookahead (c : Cursor) : Lookahead :=
  match c.peek true with
  | none => .abruptEnd
  | some tok =>
    match tok.kind with
    | .Identifier _ | .Keyword .Yield | .Keyword .Await =>
      if c.peek_expect_no_lineterminator true then
        match c.peek_skip false with
        | some t2 =>
          if t2.kind = TokenKind.Punctuator Punctuator.Arrow then .commitArrow
          else .fallThrough
        | none => .fallThrough
      else .fallThrough
    | .Punctuator .OpenParen =>
      match c.peek_skip false with
      | some t2 =>
        match t2.kind with
        | .Punctuator .CloseParen | .Punctuator .Spread | .Identifier _ => .commitArrow
        | _ => .fallThrough
      | none => .fallThrough
    | _ => .fallThrough

/-- Embedded from src lines 134-169: the while-loop of the source advances only in
its line-terminator arm, so its line-terminator phase is the consumption of
all leading line terminators of the stream, remembering the most recent one
(src lines 163-166). -/
def consumeLineTerminators (c : Cursor) : Option Token × Cursor :=
  match c.stream.takeWhile Token.isLT with
  | [] => (none, c)
  | lts =>
    (lts.getLast?,
     ⟨c.stream.dropWhile Token.isLT, none, c.goal, c.pushedWhileFull⟩)

/-- Embedded from src lines 171-173: if a line terminator was consumed and
remembered by the loop, push it back onto the cursor. -/
def restoreLineTerminator : Option Token → Cursor → Cursor
  | some lt, c => c.push_back lt
  | none, c => c

/-- A primary-expression node for a single token, when the token is an
identifier or a literal. -/
def primaryOfKind : TokenKind → Option Node
  | .Identifier name => some (Node.Identifier name)
  | .NumericLiteral n => some (Node.Const (Const.num n))
  | .StringLiteral s => some (Node.Const (Const.str s))
  | .BoolLiteral b => some (Node.Const (Const.bool b))
  | _ => none

/-- Modelled from the spec: the elements of an array literal, read after the
opening bracket up to the matching close bracket.  The array-literal grammar
belongs to the delegated lower-precedence parser chain, which is not in the
provided source; elements are restricted to identifier and literal tokens,
which covers every array literal the claims mention. -/
def arrayElems : Nat → List Node → Cursor → ParseResult × Cursor
  | 0, _, c => (.error .outOfFuel, c)
  | Nat.succ fuel, acc, c =>
    match c.next false with
    | (none, c) => (.error .AbruptEnd, c)
    | (some tok, c) =>
      if tok.kind = TokenKind.Punctuator Punctuator.CloseBracket then
        (.ok (Node.ArrayDecl acc), c)
      else
        match primaryOfKind tok.kind with
        | some elem =>
          match c.next false with
          | (none, c) => (.error .AbruptEnd, c)
          | (some t2, c) =>
            if t2.kind = TokenKind.Punctuator Punctuator.Comma then
              arrayElems fuel (acc ++ [elem]) c
            else if t2.kind = TokenKind.Punctuator Punctuator.CloseBracket then
              (.ok (Node.ArrayDecl (acc ++ [elem])), c)
            else (.error (.lexSyn ("unexpected token in array literal")), c)
        | none => (.error (.lexSyn ("unexpected token in array literal")), c)

/-- Modelled from the spec (sections 2 and 6): the Conditional-Expression
collaborator, which "resolves everything of lower precedence than assignment"
and whose output this layer treats opaquely.  Its source is not among the
provided files, so it is modelled on the expression shapes the claims
exercise: identifiers (including `yield`/`await` used as identifier-like
tokens), literals, array literals, and parenthesized grouping. -/
def conditionalParse : Nat → AssignmentExpression → Cursor → ParseResult × Cursor
  | 0, _, c => (.error .outOfFuel, c)
  | Nat.succ fuel, self, c =>
    match c.next true with
    | (none, c) => (.error .AbruptEnd, c)
    | (some tok, c) =>
      match tok.kind with
      | .Identifier name => (.ok (Node.Identifier name), c)
      | .Keyword .Yield => (.ok (Node.Identifier ("yield")), c)
      | .Keyword .Await => (.ok (Node.Identifier ("await")), c)
      | .NumericLiteral n => (.ok (Node.Const (Const.num n)), c)
      | .StringLiteral s => (.ok (Node.Const (Const.str s)), c)
      | .BoolLiteral b => (.ok (Node.Const (Const.bool b)), c)
      | .Punctuator .OpenBracket => arrayElems fuel [] c
      | .Punctuator .OpenParen =>
        match conditionalParse fuel self c with
        | (.error e, c) => (.error e, c)
        | (.ok inner, c) =>
          match c.next true with
          | (none, c) => (.error .AbruptEnd, c)
          | (some t2, c) =>
            if t2.kind = TokenKind.Punctuator Punctuator.CloseParen then (.ok inner, c)
            else (.error (.lexSyn ("expected closing parenthesis")), c)
      | _ => (.error (.lexSyn ("unexpected token")), c)

/-- Modelled from the spec: the parenthesized parameter-list shapes of the
Arrow-Function collaborator — empty list, rest parameter, or identifiers
separated by commas (spec section 4, step 2). -/
def parenParams : Nat → List FormalParameter → Cursor →
    Except ParseError (List FormalParameter) × Cursor
  | 0, _, c => (.error .outOfFuel, c)
  | Nat.succ fuel, acc, c =>
    match c.next false with
    | (none, c) => (.error .AbruptEnd, c)
    | (some tok, c) =>
      match tok.kind with
      | .Punctuator .CloseParen => (.ok acc, c)
      | .Punctuator .Spread =>
        match c.next false with
        | (none, c) => (.error .AbruptEnd, c)
        | (some t2, c) =>
          match t2.kind with
          | .Identifier name =>
            match c.next false with
            | (none, c) => (.error .AbruptEnd, c)
            | (some t3, c) =>
              if t3.kind = TokenKind.Punctuator Punctuator.CloseParen then
                (.ok (acc ++ [FormalParameter.mk name true]), c)
              else (.error (.lexSyn ("rest parameter must be last")), c)
          | _ => (.error (.lexSyn ("expected parameter name")), c)
      | .Identifier name =>
        match c.next false with
        | (none, c) => (.error .AbruptEnd, c)
        | (some t2, c) =>
          if t2.kind = TokenKind.Punctuator Punctuator.Comma then
            parenParams fuel (acc ++ [FormalParameter.mk name false]) c
          else if t2.kind = TokenKind.Punctuator Punctuator.CloseParen then
            (.ok (acc ++ [FormalParameter.mk name false]), c)
          else (.error (.lexSyn ("expected comma or closing parenthesis")), c)
      | _ => (.error (.lexSyn ("unexpected token in parameter list")), c)

/-- Modelled from the spec: the Arrow-Function collaborator "consumes parameter
list and body" (spec section 2); this part consumes the parameter list (a bare
identifier-like token or a parenthesized list) followed by the `=>`
punctuator.  The body is then parsed by the assignment-expression parser
itself. -/
def arrowParamsAndArrow (fuel : Nat) (c : Cursor) :
    Except ParseError (List FormalParameter) × Cursor :=
  match c.next false with
  | (none, c) => (.error .AbruptEnd, c)
  | (some tok, c) =>
    match
      (match tok.kind with
       | .Identifier name => (Except.ok [FormalParameter.mk name false], c)
       | .Keyword .Yield => (Except.ok [FormalParameter.mk ("yield") false], c)
       | .Keyword .Await => (Except.ok [FormalParameter.mk ("await") false], c)
       | .Punctuator .OpenParen => parenParams fuel [] c
       | _ => ((Except.error (ParseError.lexSyn ("unexpected arrow function start"))), c))
    with
    | (.error e, c) => (.error e, c)
    | (.ok params, c) =>
      match c.next false with
      | (none, c) => (.error .AbruptEnd, c)
      | (some t2, c) =>
        if t2.kind = TokenKind.Punctuator Punctuator.Arrow then (.ok params, c)
        else (.error (.lexSyn ("expected arrow")), c)

/-- Embedded from src lines 129-175: the non-arrow path of
`AssignmentExpression::parse`.  The lexer goal is reset to `Div` (line 129),
the conditional-expression collaborator parses the left operand (lines
131-132), the loop consumes line terminators remembering the most recent one
(lines 134-137, 163-166), then at most one assignment or compound-assignment
operator is consumed: plain `=` requires `is_assignable` and builds an
`Assign` node from a single recursive right-hand-side parse (lines 139-148), a
punctuator with `as_binop` builds a `BinOp` node the same way (lines 150-161),
anything else ends the loop (line 167); a remembered line terminator is pushed
back only on the success paths (lines 171-173).  The recursive
self-invocation is passed in as `rhs`, which `parse` instantiates with
itself. -/
def nonArrowBranch (rhs : AssignmentExpression → Cursor → ParseResult × Cursor)
    (fuel : Nat) (self : AssignmentExpression) (c : Cursor) : ParseResult × Cursor :=
  let c1 := c.set_goal InputElement.Div
  match conditionalParse fuel self c1 with
  | (.error e, c2) => (.error e, c2)
  | (.ok lhs, c2) =>
    match consumeLineTerminators c2 with
    | (line_terminator, c3) =>
      match c3.peek false with
      | some tok =>
        match tok.kind with
        | .Punctuator .Assign =>
          let c4 := (c3.next false).2
          if is_assignable lhs then
            match rhs self c4 with
            | (.ok rhsNode, c5) =>
              (.ok (Node.Assign lhs rhsNode), restoreLineTerminator line_terminator c5)
            | (.error e, c5) => (.error e, c5)
          else
            (.error (.lexSyn ("Invalid left-hand side in assignment")), c4)
        | .Punctuator p =>
          match p.as_binop with
          | some binop =>
            let c4 := (c3.next false).2
            if is_assignable lhs then
              match rhs self c4 with
              | (.ok expr, c5) =>
                (.ok (Node.BinOp binop lhs expr), restoreLineTerminator line_terminator c5)
              | (.error e, c5) => (.error e, c5)
            else
              (.error (.lexSyn ("Invalid left-hand side in assignment")), c4)
          | none => (.ok lhs, restoreLineTerminator line_terminator c3)
        | _ => (.ok lhs, restoreLineTerminator line_terminator c3)
      | none => (.ok lhs, restoreLineTerminator line_terminator c3)

/-- Embedded from src lines 81-176: `AssignmentExpression::parse`.  The cursor
goal is set to `Div` (line 83); the arrow-function disambiguation runs on the
peeked tokens (lines 86-127); on commitment, the arrow-function collaborator
consumes the parameter list and `=>` and this parser itself parses the body,
the whole wrapped as `Node::ArrowFunctionDecl` (lines 94-100 and 113-119);
otherwise the non-arrow branch runs (lines 129-175).  The fuel argument is the
recursion budget of the embedding; every recursive call strictly decreases
it. -/
def parse : Nat → AssignmentExpression → Cursor → ParseResult × Cursor
  | 0, _, c => (.error .outOfFuel, c)
  | Nat.succ fuel, self, c =>
    let cg := c.set_goal InputElement.Div
    match arrowLookahead cg with
    | .abruptEnd => (.error .AbruptEnd, cg)
    | .commitArrow =>
      match arrowParamsAndArrow fuel cg with
      | (.error e, c2) => (.error e, c2)
      | (.ok params, c2) =>
        match parse fuel self c2 with
        | (.ok body, c3) => (.ok (Node.ArrowFunctionDecl params body), c3)
        | (.error e, c3) => (.error e, c3)
    | .fallThrough => nonArrowBranch (fun s cc => parse fuel s cc) fuel self cg

/-- The identifier-like leading tokens of the arrow disambiguation (src lines
88-90: an identifier, or the `yield`/`await` keyword used as an
identifier-like token) together with the name they stand for. -/
def identNameOf : TokenKind → Option String
  | .Identifier s => some s
  | .Keyword .Yield => some ("yield")
  | .Keyword .Await => some ("await")
  | _ => none

/-- The token shapes two ahead of an open parenthesis on which the
disambiguation commits (src lines 110-112): close-parenthesis, the spread
punctuator, or an identifier. -/
def parenCommitKind : TokenKind → Bool
  | .Punctuator .CloseParen => true
  | .Punctuator .Spread => true
  | .Identifier _ => true
  | _ => false

/-- Default grammar flags used by the concrete witness inputs. -/
def defaultFlags : AssignmentExpression := ⟨true, false, false⟩

/-- Witness input for the invalid-left-hand-side claims: the token stream of
`1 = 2`. -/
def constAssignInput : Cursor :=
  ⟨[⟨TokenKind.NumericLiteral 1, 0⟩, ⟨TokenKind.Punctuator Punctuator.Assign, 1⟩,
    ⟨TokenKind.NumericLiteral 2, 2⟩], none, InputElement.RegExp, false⟩

/-- The cursor state after the conditional collaborator has consumed the
literal `1` of `constAssignInput`. -/
def constAssignAfterLhs : Cursor :=
  ⟨[⟨TokenKind.Punctuator Punctuator.Assign, 1⟩, ⟨TokenKind.NumericLiteral 2, 2⟩],
   none, InputElement.Div, false⟩

/-- Failing input for the push-back invariant: the token stream of
`a \n = b \n ;` — an identifier, a line terminator, the assignment operator,
an identifier, a line terminator, and a semicolon. -/
def doublePushbackInput : Cursor :=
  ⟨[⟨TokenKind.Identifier ("a"), 0⟩, ⟨TokenKind.LineTerminator, 1⟩,
    ⟨TokenKind.Punctuator Punctuator.Assign, 2⟩, ⟨TokenKind.Identifier ("b"), 3⟩,
    ⟨TokenKind.LineTerminator, 4⟩, ⟨TokenKind.Punctuator Punctuator.Semicolon, 5⟩],
   none, InputElement.RegExp, false⟩

/-- One unfolding step of `parse` at positive fuel, in the exact shape of its
definition (src lines 81-176). -/
theorem parse_succ (fuel : Nat) (self : AssignmentExpression) (c : Cursor) :
    parse (fuel + 1) self c =
      match arrowLookahead (c.set_goal InputElement.Div) with
      | .abruptEnd => (.error .AbruptEnd, c.set_goal InputElement.Div)
      | .commitArrow =>
        match arrowParamsAndArrow fuel (c.set_goal InputElement.Div) with
        | (.error e, c2) => (.error e, c2)
        | (.ok params, c2) =>
          match parse fuel self c2 with
          | (.ok body, c3) => (.ok (Node.ArrowFunctionDecl params body), c3)
          | (.error e, c3) => (.error e, c3)
      | .fallThrough =>
        nonArrowBranch (fun s cc => parse fuel s cc) fuel self
          (c.set_goal InputElement.Div) := rfl

/-- Setting the lexer goal twice is the same as setting it once. -/
theorem set_goal_set_goal (c : Cursor) (g h : InputElement) :
    (c.set_goal g).set_goal h = c.set_goal h := rfl

/-- Claim C7: for every AST node, `is_assignable` returns false exactly when the node
is a literal-constant node or an array-literal node, and returns true for
every other node kind (identifiers, member accesses, calls, assignments,
binary operations, arrow functions). -/
theorem is_assignable_characterization (n : Node) :
    is_assignable n = false ↔
      (∃ c, n = Node.Const c) ∨ ∃ elems, n = Node.ArrayDecl elems := by
  cases n <;> simp [is_assignable]

/-- Claim C4: for every input of the form `a = b = c` (with a trailing delimiter and
arbitrary further tokens), the resulting AST is right-associative,
`a = (b = c)`: the parse consumes one top-level `=`, obtains the right operand
by a single recursive self-invocation with the same flags, and stops after
building the assignment node. -/
theorem assign_right_associative (f : Nat) (self : AssignmentExpression)
    (s1 s2 s3 : String) (p1 p2 p3 p4 p5 p6 : Nat) (g : InputElement) (b : Bool)
    (rest : List Token) :
    (parse (f + 4) self
      ⟨⟨TokenKind.Identifier s1, p1⟩ :: ⟨TokenKind.Punctuator Punctuator.Assign, p2⟩ ::
       ⟨TokenKind.Identifier s2, p3⟩ :: ⟨TokenKind.Punctuator Punctuator.Assign, p4⟩ ::
       ⟨TokenKind.Identifier s3, p5⟩ :: ⟨TokenKind.Punctuator Punctuator.Semicolon, p6⟩ ::
       rest, none, g, b⟩).1
      = .ok (Node.Assign (Node.Identifier s1)
          (Node.Assign (Node.Identifier s2) (Node.Identifier s3))) := rfl

/-- Claim C9: on the invalid-left-hand-side error path the cursor is not restored:
for `1 \n = 2 …` the assignment operator has been consumed before the error is
returned and the remembered line terminator is not pushed back, so the caller
observes a stream that begins right after the `=`, with an empty pushback
slot. -/
theorem invalid_lhs_error_cursor_not_restored (f : Nat) (self : AssignmentExpression)
    (n m q1 q2 q3 q4 : Nat) (g : InputElement) (b : Bool) (rest : List Token) :
    parse (f + 2) self
      ⟨⟨TokenKind.NumericLiteral n, q1⟩ :: ⟨TokenKind.LineTerminator, q2⟩ ::
       ⟨TokenKind.Punctuator Punctuator.Assign, q3⟩ :: ⟨TokenKind.NumericLiteral m, q4⟩ ::
       rest, none, g, b⟩
      = (Except.error (ParseError.lexSyn ("Invalid left-hand side in assignment")),
         ⟨⟨TokenKind.NumericLiteral m, q4⟩ :: rest, none, InputElement.Div, b⟩) := rfl

/-- Claim C10: if the stream ends during the identifier-branch lookahead (a lone
identifier with no second token ahead), or the no-line-terminator check fails
(a raw line terminator in front of the identifier), parse does not fail with
AbruptEnd: the lookahead falls through and the conditional branch parses the
identifier; AbruptEnd arises only when the stream is empty at the very first
peek. -/
theorem lookahead_abrupt_end_only_first_peek (f : Nat) (self : AssignmentExpression)
    (s : String) (p q : Nat) (g : InputElement) (b : Bool) :
    arrowLookahead ((⟨[⟨TokenKind.Identifier s, p⟩], none, g, b⟩ : Cursor).set_goal
        InputElement.Div) = Lookahead.fallThrough
    ∧ (parse (f + 2) self ⟨[⟨TokenKind.Identifier s, p⟩], none, g, b⟩).1
        = .ok (Node.Identifier s)
    ∧ arrowLookahead ((⟨[⟨TokenKind.LineTerminator, q⟩, ⟨TokenKind.Identifier s, p⟩],
        none, g, b⟩ : Cursor).set_goal InputElement.Div) = Lookahead.fallThrough
    ∧ (parse (f + 2) self ⟨[⟨TokenKind.LineTerminator, q⟩, ⟨TokenKind.Identifier s, p⟩],
        none, g, b⟩).1 = .ok (Node.Identifier s)
    ∧ (parse (f + 1) self ⟨[], none, g, b⟩).1 = Except.error ParseError.AbruptEnd :=
  ⟨rfl, rfl, rfl, rfl, rfl⟩

/-- Claim C3 (failing input): on `a \n = b \n ;` both the outer call and the
recursive right-hand-side call consume a line terminator; the inner call
pushes its terminator back on returning, and the outer call then invokes
`push_back` while the slot is still occupied — the programming error the
claim says can never happen.  The parse still returns the assignment node in
this model, with the occupied-slot violation recorded. -/
theorem push_back_while_occupied :
    (parse 6 defaultFlags doublePushbackInput).2.pushedWhileFull = true
    ∧ (parse 6 defaultFlags doublePushbackInput).1
        = .ok (Node.Assign (Node.Identifier ("a")) (Node.Identifier ("b"))) :=
  ⟨rfl, rfl⟩

/-- Claim C1 (amended): whenever the loop meets an assignment or compound-assignment
operator and the left operand is rejected by `is_assignable`, parse fails with
the lexing-layer syntax error whose message is the fixed text
"Invalid left-hand side in assignment" (capital I, no position data beyond the
message), and never succeeds. -/
theorem invalid_lhs_assignment_error (f : Nat) (self : AssignmentExpression) (c : Cursor)
    (lhs : Node) (c1 : Cursor) (lt : Option Token) (c2 : Cursor) (p : Punctuator) (q : Nat)
    (hfall : arrowLookahead (c.set_goal InputElement.Div) = Lookahead.fallThrough)
    (hcond : conditionalParse f self (c.set_goal InputElement.Div) = (.ok lhs, c1))
    (hlt : consumeLineTerminators c1 = (lt, c2))
    (hpeek : c2.peek false = some ⟨TokenKind.Punctuator p, q⟩)
    (hop : p = Punctuator.Assign ∨ (p.as_binop).isSome = true)
    (hbad : is_assignable lhs = false) :
    (parse (f + 1) self c).1
      = .error (.lexSyn ("Invalid left-hand side in assignment")) := by
  rw [parse_succ, hfall]
  show (nonArrowBranch (fun s cc => parse f s cc) f self (c.set_goal InputElement.Div)).1 = _
  rw [nonArrowBranch, set_goal_set_goal, hcond]
  simp only [hlt, hpeek]
  rcases hop with h | h
  · subst h
    simp [hbad]
  · cases p <;> simp_all [Punctuator.as_binop]

/-- Claim C1 witness: instantiating the amended claim on the input `1 = 2`. -/
theorem invalid_lhs_assignment_error_witness :
    (parse 2 defaultFlags constAssignInput).1
      = .error (.lexSyn ("Invalid left-hand side in assignment")) :=
  invalid_lhs_assignment_error 1 defaultFlags constAssignInput
    (Node.Const (Const.num 1)) constAssignAfterLhs none constAssignAfterLhs
    Punctuator.Assign 1 rfl rfl rfl rfl (Or.inl rfl) rfl

/-- Claim C1 counterexample: on `1 = 2` the message of the error is the fixed text
"Invalid left-hand side in assignment" (capital I), not the claimed text
"invalid left-hand side in assignment"; the error construction embedded from
src lines 145-147 wraps only that message, so the error also carries no cursor
position. -/
theorem invalid_lhs_message_counterexample :
    errMsgOf (parse 2 defaultFlags constAssignInput).1
        = some ("Invalid left-hand side in assignment")
    ∧ errMsgOf (parse 2 defaultFlags constAssignInput).1
        ≠ some ("invalid left-hand side in assignment") :=
  ⟨rfl, by decide⟩

/-- If the committed arrow branch — parameters already consumed, body parsed by
the recursive call — returned a node, that node is an arrow-function
declaration. -/
theorem arrow_commit_result (f : Nat) (self : AssignmentExpression)
    (ps : List FormalParameter) (crest : Cursor) (node : Node) (cA2 : Cursor)
    (h : (match parse f self crest with
          | (.ok body, c3) =>
            ((Except.ok (Node.ArrowFunctionDecl ps body) : ParseResult), c3)
          | (.error e, c3) => ((Except.error e : ParseResult), c3)) = (.ok node, cA2)) :
    node.isArrowFunctionDecl = true := by
  revert h
  cases parse f self crest with
  | mk res c3 =>
    cases res with
    | ok body =>
      intro h
      cases (Prod.mk.injEq .. |>.mp h).1
      rfl
    | error e =>
      intro h
      exact absurd (Prod.mk.injEq .. |>.mp h).1 (by simp)

/-- Claim C2: for an input beginning with an identifier (or `yield`/`await` used as
an identifier-like token) directly followed by `=>`, parse commits to the
arrow-function branch and the node it returns is an arrow-function
declaration; with a line terminator between the identifier and `=>`, parse
does not take the arrow branch and instead parses the identifier as a
standalone expression. -/
theorem arrow_identifier_disambiguation (f : Nat) (self : AssignmentExpression)
    (s : String) (k : TokenKind) (p1 p2 q : Nat) (rest : List Token)
    (node : Node) (cA2 : Cursor) (g : InputElement) (b : Bool)
    (hk : identNameOf k = some s)
    (hok : parse (f + 1) self
        ⟨⟨k, p1⟩ :: ⟨TokenKind.Punctuator Punctuator.Arrow, p2⟩ :: rest, none, g, b⟩
        = (.ok node, cA2)) :
    arrowLookahead ((⟨⟨k, p1⟩ :: ⟨TokenKind.Punctuator Punctuator.Arrow, p2⟩ :: rest,
        none, g, b⟩ : Cursor).set_goal InputElement.Div) = Lookahead.commitArrow
    ∧ node.isArrowFunctionDecl = true
    ∧ arrowLookahead ((⟨⟨k, p1⟩ :: ⟨TokenKind.LineTerminator, q⟩ ::
        ⟨TokenKind.Punctuator Punctuator.Arrow, p2⟩ :: rest, none, g, b⟩ : Cursor).set_goal
        InputElement.Div) = Lookahead.fallThrough
    ∧ (parse (f + 2) self ⟨⟨k, p1⟩ :: ⟨TokenKind.LineTerminator, q⟩ ::
        ⟨TokenKind.Punctuator Punctuator.Arrow, p2⟩ :: rest, none, g, b⟩).1
        = .ok (Node.Identifier s) := by
  cases k with
  | Identifier name =>
    rw [show identNameOf (TokenKind.Identifier name) = some name from rfl,
        Option.some.injEq] at hk
    cases hk
    exact ⟨rfl, arrow_commit_result f self [FormalParameter.mk s false]
      ⟨rest, none, InputElement.Div, b⟩ node cA2 hok, rfl, rfl⟩
  | Keyword kw =>
    cases kw with
    | Yield =>
      rw [show identNameOf (TokenKind.Keyword Keyword.Yield) = some ("yield") from rfl,
          Option.some.injEq] at hk
      cases hk
      exact ⟨rfl, arrow_commit_result f self [FormalParameter.mk ("yield") false]
        ⟨rest, none, InputElement.Div, b⟩ node cA2 hok, rfl, rfl⟩
    | Await =>
      rw [show identNameOf (TokenKind.Keyword Keyword.Await) = some ("await") from rfl,
          Option.some.injEq] at hk
      cases hk
      exact ⟨rfl, arrow_commit_result f self [FormalParameter.mk ("await") false]
        ⟨rest, none, InputElement.Div, b⟩ node cA2 hok, rfl, rfl⟩
  | Punctuator p => exact absurd hk (by simp [identNameOf])
  | NumericLiteral n => exact absurd hk (by simp [identNameOf])
  | StringLiteral t => exact absurd hk (by simp [identNameOf])
  | BoolLiteral bb => exact absurd hk (by simp [identNameOf])
  | LineTerminator => exact absurd hk (by simp [identNameOf])

/-- Claim C2 witness: `a => x` commits and yields an arrow-function node, and
`a \n => x` (line terminator before `=>`) yields the standalone identifier. -/
theorem arrow_identifier_disambiguation_witness :
    arrowLookahead ((⟨[⟨TokenKind.Identifier ("a"), 0⟩,
        ⟨TokenKind.Punctuator Punctuator.Arrow, 1⟩, ⟨TokenKind.Identifier ("x"), 2⟩],
        none, InputElement.RegExp, false⟩ : Cursor).set_goal InputElement.Div)
        = Lookahead.commitArrow
    ∧ (Node.ArrowFunctionDecl [FormalParameter.mk ("a") false]
        (Node.Identifier ("x"))).isArrowFunctionDecl = true
    ∧ arrowLookahead ((⟨[⟨TokenKind.Identifier ("a"), 0⟩, ⟨TokenKind.LineTerminator, 9⟩,
        ⟨TokenKind.Punctuator Punctuator.Arrow, 1⟩, ⟨TokenKind.Identifier ("x"), 2⟩],
        none, InputElement.RegExp, false⟩ : Cursor).set_goal InputElement.Div)
        = Lookahead.fallThrough
    ∧ (parse 4 defaultFlags ⟨[⟨TokenKind.Identifier ("a"), 0⟩,
        ⟨TokenKind.LineTerminator, 9⟩, ⟨TokenKind.Punctuator Punctuator.Arrow, 1⟩,
        ⟨TokenKind.Identifier ("x"), 2⟩], none, InputElement.RegExp, false⟩).1
        = .ok (Node.Identifier ("a")) :=
  arrow_identifier_disambiguation 2 defaultFlags ("a") (TokenKind.Identifier ("a"))
    0 1 9 [⟨TokenKind.Identifier ("x"), 2⟩]
    (Node.ArrowFunctionDecl [FormalParameter.mk ("a") false] (Node.Identifier ("x")))
    ⟨[], none, InputElement.Div, false⟩ InputElement.RegExp false rfl rfl

/-- Claim C5: for every input `a <op>= b` whose compound-assignment punctuator maps
to a binary operator, parse returns a binary-operation node with that
underlying operator, left child `a` and right child `b`. -/
theorem compound_assign_binop (f : Nat) (self : AssignmentExpression)
    (p : Punctuator) (op : BinOpKind) (s1 s2 : String) (q1 q2 q3 q4 : Nat)
    (g : InputElement) (b : Bool) (rest : List Token)
    (hp : p.as_binop = some op) :
    (parse (f + 3) self
      ⟨⟨TokenKind.Identifier s1, q1⟩ :: ⟨TokenKind.Punctuator p, q2⟩ ::
       ⟨TokenKind.Identifier s2, q3⟩ :: ⟨TokenKind.Punctuator Punctuator.Semicolon, q4⟩ ::
       rest, none, g, b⟩).1
      = .ok (Node.BinOp op (Node.Identifier s1) (Node.Identifier s2)) := by
  cases p <;>
    first
      | exact Option.noConfusion hp
      | (injection hp with h; subst h; rfl)

/-- Claim C5 witness: `a += b ;` parses to the binary-operation node whose operator
is the addition operator underlying `+=`. -/
theorem compound_assign_binop_witness :
    (parse 3 defaultFlags
      ⟨[⟨TokenKind.Identifier ("a"), 0⟩, ⟨TokenKind.Punctuator Punctuator.AssignAdd, 1⟩,
        ⟨TokenKind.Identifier ("b"), 2⟩, ⟨TokenKind.Punctuator Punctuator.Semicolon, 3⟩],
       none, InputElement.RegExp, false⟩).1
      = .ok (Node.BinOp BinOpKind.add (Node.Identifier ("a")) (Node.Identifier ("b"))) :=
  compound_assign_binop 0 defaultFlags Punctuator.AssignAdd BinOpKind.add
    ("a") ("b") 0 1 2 3 InputElement.RegExp false [] rfl

/-- Claim C6: with an open parenthesis first, the disambiguation commits to the
arrow-function branch exactly when the token two ahead is a close-parenthesis,
the spread punctuator, or an identifier; `() => E`, `(...x) => E` and
`(x, y) => E` parse as arrow functions, while another second-ahead shape (a
parenthesized literal) falls through to the conditional-expression branch. -/
theorem paren_arrow_commit_criterion (f : Nat) (self : AssignmentExpression)
    (t2 : Token) (p0 : Nat) (rest rest2 : List Token) (g : InputElement) (b : Bool)
    (s sy sx : String) (n q1 q2 q3 q4 q5 q6 q7 : Nat) :
    (arrowLookahead ((⟨⟨TokenKind.Punctuator Punctuator.OpenParen, p0⟩ :: t2 :: rest,
        none, g, b⟩ : Cursor).set_goal InputElement.Div) = Lookahead.commitArrow
      ↔ parenCommitKind t2.kind = true)
    ∧ (parse (f + 3) self
        ⟨⟨TokenKind.Punctuator Punctuator.OpenParen, q1⟩ ::
         ⟨TokenKind.Punctuator Punctuator.CloseParen, q2⟩ ::
         ⟨TokenKind.Punctuator Punctuator.Arrow, q3⟩ :: ⟨TokenKind.Identifier sx, q4⟩ ::
         ⟨TokenKind.Punctuator Punctuator.Semicolon, q5⟩ :: rest2, none, g, b⟩).1
        = .ok (Node.ArrowFunctionDecl [] (Node.Identifier sx))
    ∧ (parse (f + 3) self
        ⟨⟨TokenKind.Punctuator Punctuator.OpenParen, q1⟩ ::
         ⟨TokenKind.Punctuator Punctuator.Spread, q2⟩ :: ⟨TokenKind.Identifier s, q3⟩ ::
         ⟨TokenKind.Punctuator Punctuator.CloseParen, q4⟩ ::
         ⟨TokenKind.Punctuator Punctuator.Arrow, q5⟩ :: ⟨TokenKind.Identifier sx, q6⟩ ::
         ⟨TokenKind.Punctuator Punctuator.Semicolon, q7⟩ :: rest2, none, g, b⟩).1
        = .ok (Node.ArrowFunctionDecl [FormalParameter.mk s true] (Node.Identifier sx))
    ∧ (parse (f + 3) self
        ⟨⟨TokenKind.Punctuator Punctuator.OpenParen, q1⟩ :: ⟨TokenKind.Identifier s, q2⟩ ::
         ⟨TokenKind.Punctuator Punctuator.Comma, q3⟩ :: ⟨TokenKind.Identifier sy, q4⟩ ::
         ⟨TokenKind.Punctuator Punctuator.CloseParen, q5⟩ ::
         ⟨TokenKind.Punctuator Punctuator.Arrow, q6⟩ :: ⟨TokenKind.Identifier sx, q7⟩ ::
         ⟨TokenKind.Punctuator Punctuator.Semicolon, n⟩ :: rest2, none, g, b⟩).1
        = .ok (Node.ArrowFunctionDecl
            [FormalParameter.mk s false, FormalParameter.mk sy false]
            (Node.Identifier sx))
    ∧ (parse (f + 3) self
        ⟨⟨TokenKind.Punctuator Punctuator.OpenParen, q1⟩ :: ⟨TokenKind.NumericLiteral n, q2⟩ ::
         ⟨TokenKind.Punctuator Punctuator.CloseParen, q3⟩ ::
         ⟨TokenKind.Punctuator Punctuator.Semicolon, q4⟩ :: rest2, none, g, b⟩).1
        = .ok (Node.Const (Const.num n)) := by
  refine ⟨?_, rfl, rfl, rfl, rfl⟩
  obtain ⟨k2, p2⟩ := t2
  cases k2 <;>
    first
      | exact iff_of_true rfl rfl
      | exact iff_of_false (fun h => Lookahead.noConfusion h) (fun h => Bool.noConfusion h)
      | (rename_i pp
         cases pp <;>
           first
             | exact iff_of_true rfl rfl
             | exact iff_of_false (fun h => Lookahead.noConfusion h)
                 (fun h => Bool.noConfusion h))

/-- Claim C8: when the arrow-function disambiguation does not commit, parse proceeds
with the non-arrow branch on a cursor whose stream position and pushback slot
are exactly those of the input cursor — the lookahead, built from peeks only,
consumed nothing. -/
theorem lookahead_non_commit_frame (f : Nat) (self : AssignmentExpression) (c : Cursor)
    (hfall : arrowLookahead (c.set_goal InputElement.Div) = Lookahead.fallThrough) :
    parse (f + 1) self c
        = nonArrowBranch (fun s cc => parse f s cc) f self (c.set_goal InputElement.Div)
    ∧ (c.set_goal InputElement.Div).stream = c.stream
    ∧ (c.set_goal InputElement.Div).pushedBack = c.pushedBack := by
  refine ⟨?_, rfl, rfl⟩
  rw [parse_succ, hfall]

/-- Claim C8 witness: on the input `1` the disambiguation does not commit, and parse
continues on an unperturbed stream. -/
theorem lookahead_non_commit_frame_witness :
    parse 2 defaultFlags (⟨[⟨TokenKind.NumericLiteral 1, 0⟩], none,
        InputElement.RegExp, false⟩ : Cursor)
        = nonArrowBranch (fun s cc => parse 1 s cc) 1 defaultFlags
            ((⟨[⟨TokenKind.NumericLiteral 1, 0⟩], none, InputElement.RegExp,
              false⟩ : Cursor).set_goal InputElement.Div)
    ∧ ((⟨[⟨TokenKind.NumericLiteral 1, 0⟩], none, InputElement.RegExp,
        false⟩ : Cursor).set_goal InputElement.Div).stream
        = (⟨[⟨TokenKind.NumericLiteral 1, 0⟩], none, InputElement.RegExp,
            false⟩ : Cursor).stream
    ∧ ((⟨[⟨TokenKind.NumericLiteral 1, 0⟩], none, InputElement.RegExp,
        false⟩ : Cursor).set_goal InputElement.Div).pushedBack
        = (⟨[⟨TokenKind.NumericLiteral 1, 0⟩], none, InputElement.RegExp,
            false⟩ : Cursor).pushedBack :=
  lookahead_non_commit_frame 1 defaultFlags
    (⟨[⟨TokenKind.NumericLiteral 1, 0⟩], none, InputElement.RegExp, false⟩ : Cursor) rfl

end Boa
